import Mathlib

/-!
Verification of the mWater sensor-dashboard analytics pipeline
(`run_sensor_dashboard_for_web.py` / `create-sensor-dashboard.py`).

The Python functions are shallowly embedded: a pandas DataFrame of sensor
readings becomes a `List Reading` carrying exactly the columns the modelled
functions consume (`date`, `hour`, `month`, `liters`, all derived in local
time by `load_data`); pandas `Series.mean()` of an empty series is NaN,
modelled as `none : Option Rat`; Python `round` applied to NaN raises
`ValueError`, modelled as `Except.error`.  pandas `groupby` sorts its group
keys, but every aggregation used here (mean / sum / nunique over groups) is
independent of group order, so groups are enumerated with `List.dedup`.
-/

/-- Function `determine_season` from the dashboard scripts: month-to-season mapping,
`month in [12,1,2]` etc. translated to the corresponding disjunctions. -/
def determine_season (month : Int) : String :=
  if month = 12 ∨ month = 1 ∨ month = 2 then ("Hot Dry (Dec-Feb)")
  else if month = 3 ∨ month = 4 ∨ month = 5 then ("Long Rains (Mar-May)")
  else if month = 6 ∨ month = 7 ∨ month = 8 then ("Cool Dry (Jun-Aug)")
  else ("Short Rains (Sep-Nov)")

/-- The four fixed season labels. -/
def seasonLabels : List String :=
  ["Hot Dry (Dec-Feb)", "Long Rains (Mar-May)", "Cool Dry (Jun-Aug)",
   "Short Rains (Sep-Nov)"]

/-- One row of the sensor DataFrame, restricted to the columns consumed by
`calculate_key_metrics` and `calculate_seasonal_averages`.  `date`, `month`
and `hour` are the local-time fields added by `load_data`; `date` is a local
calendar day encoded as a day number so that `pd.Timedelta(days=7)`
arithmetic is integer arithmetic. -/
structure Reading where
  date : Int
  hour : Int
  month : Int
  liters : Rat
deriving DecidableEq, Repr

/-- The `season` column: `df['month'].apply(determine_season)` in `load_data`. -/
def Reading.season (r : Reading) : String := determine_season r.month

/-- Model of `Series.mean()`: NaN (`none`) on an empty series. -/
def seriesMean (xs : List Rat) : Option Rat :=
  if xs.isEmpty then none else some (xs.sum / (xs.length : Rat))

/-- The distinct values of `key` occurring in `xs`: the group keys of
`xs.groupby(key)` (pandas sorts them; aggregations used are order-free). -/
def groupKeys (xs : List Reading) (key : Reading → Int) : List Int :=
  (xs.map key).dedup

/-- The `liters` column of the group of `xs` with key value `k`. -/
def groupLiters (xs : List Reading) (key : Reading → Int) (k : Int) : List Rat :=
  (xs.filter (fun r => key r = k)).map Reading.liters

/-- Model of `xs.groupby(key)['liters'].mean().mean()`: per-group means (groups are
nonempty, so no inner NaN), then the mean of those means. -/
def groupbyMeanMean (xs : List Reading) (key : Reading → Int) : Option Rat :=
  seriesMean ((groupKeys xs key).map
    (fun k => (groupLiters xs key k).sum / ((groupLiters xs key k).length : Rat)))

/-- Model of `xs.groupby(key)['liters'].sum().mean()`: per-group sums, then their mean. -/
def groupbySumMean (xs : List Reading) (key : Reading → Int) : Option Rat :=
  seriesMean ((groupKeys xs key).map (fun k => (groupLiters xs key k).sum))

/-- Model of `df['date'].max()`: NaN (`none`) on an empty frame. -/
def maxDate (xs : List Reading) : Option Int := (xs.map (·.date)).max?

/-- Model of `df[df['date'] == df['date'].max()]`; a comparison with NaN is everywhere
false, so the empty frame restricts to the empty frame. -/
def recent_day_data (xs : List Reading) : List Reading :=
  match maxDate xs with
  | none => []
  | some m => xs.filter (fun r => r.date = m)

/-- Model of `df[df['date'] >= df['date'].max() - pd.Timedelta(days=7)]`. -/
def last_7_days (xs : List Reading) : List Reading :=
  match maxDate xs with
  | none => []
  | some m => xs.filter (fun r => m - 7 ≤ r.date)

/-- Model of `recent_day_data.groupby('hour')['liters'].mean().mean()`. -/
def avg_liters_hour_recent_day (xs : List Reading) : Option Rat :=
  groupbyMeanMean (recent_day_data xs) (·.hour)

/-- Model of `last_7_days.groupby('hour')['liters'].mean().mean()`. -/
def avg_liters_hour_7_days (xs : List Reading) : Option Rat :=
  groupbyMeanMean (last_7_days xs) (·.hour)

/-- Model of `last_7_days.groupby('date')['liters'].sum().mean()`. -/
def avg_liters_day_7_days (xs : List Reading) : Option Rat :=
  groupbySumMean (last_7_days xs) (·.date)

/-- Python `round()`: nearest integer, ties to the even integer. -/
def pythonRound (q : Rat) : Int :=
  if q - (q.floor : Rat) < 1/2 then q.floor
  else if (1 : Rat)/2 < q - (q.floor : Rat) then q.floor + 1
  else if q.floor % 2 = 0 then q.floor else q.floor + 1

/-- Python `round()` applied to a possibly-NaN float: `round(nan)` raises
`ValueError: cannot convert float NaN to integer`. -/
def roundOrFault (x : Option Rat) : Except String Int :=
  match x with
  | none => Except.error ("ValueError: cannot convert float NaN to integer")
  | some q => Except.ok (pythonRound q)

/-- The record returned by `calculate_key_metrics`. -/
structure KeyMetrics where
  avgLitersHourRecentDay : Int
  avgLitersHour7Days : Int
  avgLitersDay7Days : Int
  estimatedBeneficiaries : Int
deriving DecidableEq, Repr

/-- Function `calculate_key_metrics`: the three averages and the beneficiary estimate
`round(avg_liters_day_7_days / 15)`, every display value passed through
`round` (which faults on NaN, i.e. on an empty underlying window). -/
def calculate_key_metrics (xs : List Reading) : Except String KeyMetrics := do
  let est ← roundOrFault ((avg_liters_day_7_days xs).map (fun q => q / 15))
  let a ← roundOrFault (avg_liters_hour_recent_day xs)
  let b ← roundOrFault (avg_liters_hour_7_days xs)
  let c ← roundOrFault (avg_liters_day_7_days xs)
  pure (KeyMetrics.mk a b c est)

/-- Model of `season_data = df.groupby(['season','date'])['liters'].sum()`: one row per
distinct (season, date) pair occurring in the data. -/
def season_date_pairs (xs : List Reading) : List (String × Int) :=
  (xs.map (fun r => (r.season, r.date))).dedup

/-- The liters total of one `season_data` row. -/
def pairTotal (xs : List Reading) (p : String × Int) : Rat :=
  ((xs.filter (fun r => r.season = p.1 ∧ r.date = p.2)).map Reading.liters).sum

/-- Model of `season_data.groupby('season')['date'].nunique()` for one season: the
number of distinct dates contributing to it. -/
def days_per_season (xs : List Reading) (s : String) : Nat :=
  ((season_date_pairs xs).filter (fun p => p.1 = s)).length

/-- Model of `complete_seasons = days_per_season[days_per_season >= 85].index`: the
seasons occurring in the data whose distinct-date count reaches 85. -/
def complete_seasons (xs : List Reading) : List String :=
  (((season_date_pairs xs).map Prod.fst).dedup).filter
    (fun s => 85 ≤ days_per_season xs s)

/-- Function `calculate_seasonal_averages`: restrict `season_data` to the complete
seasons (`isin(complete_seasons)`), then `groupby('season')['liters'].mean()`
— for each retained season, the mean of its per-(season, date) daily liters
totals, returned as `avg_daily_volume`. -/
def calculate_seasonal_averages (xs : List Reading) : List (String × Rat) :=
  (complete_seasons xs).map (fun s =>
    (s, (((season_date_pairs xs).filter (fun p => p.1 = s)).map
          (pairTotal xs)).sum /
        ((((season_date_pairs xs).filter (fun p => p.1 = s)).length : Rat))))

/-- Model of `dropna` applied to a metadata column: `pandas.Series.mode` drops nulls
before counting. -/
def dropna (column : List (Option String)) : List String := column.filterMap id

/-- Lexicographic comparison of character lists by code point: the order in
which Python compares strings (and hence in which pandas sorts the mode
series). -/
def charListLt : List Char → List Char → Bool
  | [], [] => false
  | [], _ :: _ => true
  | _ :: _, [] => false
  | a :: as, b :: bs =>
    if a.toNat < b.toNat then true
    else if b.toNat < a.toNat then false
    else charListLt as bs

/-- Python string `<`: lexicographic by code point. -/
def strLtB (a b : String) : Bool := charListLt a.data b.data

/-- Minimum of a list of strings under the Python string order; `none` on the
empty list. -/
def selectMin : List String → Option String
  | [] => none
  | v :: vs =>
    match selectMin vs with
    | none => some v
    | some w => some (if strLtB v w then v else w)

/-- Model of `column.mode().values[0]` when the mode series is nonempty:
`Series.mode` returns every value of maximal multiplicity (nulls dropped)
sorted ascending, so index 0 holds the minimum of the tied values; `none`
when the mode series is empty (column entirely null or empty). -/
def modeFirst (column : List (Option String)) : Option String :=
  let vs := dropna column
  selectMin (vs.dedup.filter (fun v => decide (∀ w ∈ vs, vs.count w ≤ vs.count v)))

/-- One metadata field of `extract_metadata`:
`df[c].mode().values[0] if not df[c].mode().empty else 'Unknown'`. -/
def metadataField (column : List (Option String)) : String :=
  (modeFirst column).getD ("Unknown")

/-- The `installation_date` field of `extract_metadata`, whose guard also
checks column presence: `... if 'installation_date' in df and not
df['installation_date'].mode().empty else 'Unknown'`.  `none` models an
absent column. -/
def metadataFieldChecked (column : Option (List (Option String))) : String :=
  match column with
  | none => "Unknown"
  | some c => metadataField c

/-- Every other descriptive field of `extract_metadata`: `df[c]` on an absent
column raises `KeyError` (there is no presence guard for these columns). -/
def metadataFieldRequired (column : Option (List (Option String))) :
    Except String String :=
  match column with
  | none => Except.error ("KeyError")
  | some c => Except.ok (metadataField c)

/-- The states of the password configuration file read by `load_passwords`:
absent, unparseable JSON, or parsed JSON with an optional "passwords" key. -/
inductive ConfigFile where
  | missing
  | malformed
  | valid (passwords : Option (List String))
deriving DecidableEq, Repr

/-- Function `load_passwords`: the "passwords" list of the parsed configuration,
defaulting to `[]` on a missing file, invalid JSON, or a missing key. -/
def load_passwords (cfg : ConfigFile) : List String :=
  match cfg with
  | ConfigFile.missing => []
  | ConfigFile.malformed => []
  | ConfigFile.valid none => []
  | ConfigFile.valid (some pws) => pws

/-- The per-session `auth-state` store: `{"authenticated": False}` initially. -/
structure AuthState where
  authenticated : Bool
deriving DecidableEq, Repr

/-- Model of `password in passwords` for an optional input value (`None in passwords`
is false). -/
def passwordMatches (password : Option String) (passwords : List String) : Bool :=
  match password with
  | some p => passwords.contains p
  | none => false

/-- Function `authenticate_user`: reloads the allow-list from the configuration file on
every invocation, then checks `(n_clicks or n_submit) and password in
passwords`.  `cfg` is the configuration file contents at the moment of this
attempt. -/
def authenticate_user (n_clicks n_submit : Nat) (password : Option String)
    (auth_state : AuthState) (cfg : ConfigFile) : AuthState × String :=
  let passwords := load_passwords cfg
  if (n_clicks ≠ 0 ∨ n_submit ≠ 0) ∧ passwordMatches password passwords = true then
    ({ auth_state with authenticated := true }, "")
  else if n_clicks ≠ 0 ∨ n_submit ≠ 0 then
    (auth_state, "Incorrect password. Please try again.")
  else (auth_state, "")

/-- The pages `render_page` can produce. -/
inductive Page where
  | login
  | landing
  | sensorView (sensor_id : String)
  | notFound
deriving DecidableEq, Repr

/-- Function `render_page`: login page unless authenticated, then dispatch on the path;
`datasets` is the set of sensor ids whose CSV file exists. -/
def render_page (auth_state : AuthState) (pathname : String)
    (datasets : List String) : Page :=
  if auth_state.authenticated = false then Page.login
  else if pathname = "/" then Page.landing
  else if pathname.startsWith ("/sensor/") then
    let sensor_id := (pathname.splitOn ("/")).getLastD ("")
    if datasets.contains sensor_id then Page.sensorView sensor_id else Page.notFound
  else Page.notFound

/-- Claim side (spec 4.4): the distinct local dates present in a reading
list. -/
def distinctDates (xs : List Reading) : List Int := (xs.map (·.date)).dedup

/-- Claim side (spec 4.4): the liters total recorded in `xs` on date `d`. -/
def dailyTotal (xs : List Reading) (d : Int) : Rat :=
  ((xs.filter (fun r => r.date = d)).map Reading.liters).sum

/-- Claim side (spec 4.4): the distinct local hours present in a reading
list. -/
def distinctHours (xs : List Reading) : List Int := (xs.map (·.hour)).dedup

/-- Claim side (spec 4.4): the mean liters among the readings of `xs` whose
hour is `h`. -/
def hourlyMean (xs : List Reading) (h : Int) : Rat :=
  ((xs.filter (fun r => r.hour = h)).map Reading.liters).sum /
    ((xs.filter (fun r => r.hour = h)).length : Rat)

/-- Claim side (spec 4.5): the readings belonging to season `s`. -/
def seasonReadings (xs : List Reading) (s : String) : List Reading :=
  xs.filter (fun r => r.season = s)

/-- Claim side (spec 4.5): the distinct dates contributing to season `s`. -/
def seasonDistinctDates (xs : List Reading) (s : String) : List Int :=
  ((seasonReadings xs s).map (·.date)).dedup

/-- Claim side (spec 4.5): the daily liters total of season `s` on date `d`. -/
def seasonDailyTotal (xs : List Reading) (s : String) (d : Int) : Rat :=
  (((seasonReadings xs s).filter (fun r => r.date = d)).map Reading.liters).sum

/-- One local day of 24 hourly readings of 10 liters each (spec 8, metrics
fixture). -/
def hourlyExample : List Reading :=
  (List.range 24).map (fun h => Reading.mk 0 (Int.ofNat h) 7 10)

theorem maxDate_exists (xs : List Reading) (h : xs ≠ []) :
    ∃ m, maxDate xs = some m ∧ (∃ r ∈ xs, r.date = m) ∧ ∀ r ∈ xs, r.date ≤ m := by
  have hmap : xs.map (·.date) ≠ [] := by simpa using h
  rcases hm : (xs.map (·.date)).max? with _ | m
  · exact absurd (List.max?_eq_none_iff.mp hm) hmap
  · refine ⟨m, hm, ?_, ?_⟩
    · obtain ⟨r, hr, hrd⟩ :=
        List.mem_map.mp (List.max?_mem (fun a b => max_choice a b) hm)
      exact ⟨r, hr, hrd⟩
    · intro r hr
      exact ((List.max?_le_iff (fun a b c => max_le_iff) hm).mp le_rfl) _
        (List.mem_map_of_mem _ hr)

theorem maxDate_eq_some (xs : List Reading) (m : Int)
    (hmem : ∃ r ∈ xs, r.date = m) (hub : ∀ r ∈ xs, r.date ≤ m) :
    maxDate xs = some m := by
  obtain ⟨r0, hr0, hd0⟩ := hmem
  have hne : xs ≠ [] := by rintro rfl; exact List.not_mem_nil r0 hr0
  obtain ⟨m2, hm2, ⟨r2, hr2, hd2⟩, hub2⟩ := maxDate_exists xs hne
  have h1 : m2 ≤ m := hd2 ▸ hub r2 hr2
  have h2 : m ≤ m2 := hd0 ▸ hub2 r0 hr0
  rw [hm2, le_antisymm h1 h2]

theorem recent_day_data_ne_nil {xs : List Reading} (h : xs ≠ []) :
    recent_day_data xs ≠ [] := by
  obtain ⟨m, hm, ⟨r, hr, hd⟩, _⟩ := maxDate_exists xs h
  have hmem : r ∈ xs.filter (fun r => r.date = m) :=
    List.mem_filter.mpr ⟨hr, by simp [hd]⟩
  simp only [recent_day_data, hm]
  intro hcon
  exact List.not_mem_nil r (hcon ▸ hmem)

theorem last_7_days_ne_nil {xs : List Reading} (h : xs ≠ []) :
    last_7_days xs ≠ [] := by
  obtain ⟨m, hm, ⟨r, hr, hd⟩, _⟩ := maxDate_exists xs h
  have hmem : r ∈ xs.filter (fun r => m - 7 ≤ r.date) :=
    List.mem_filter.mpr ⟨hr, by simp [hd]⟩
  simp only [last_7_days, hm]
  intro hcon
  exact List.not_mem_nil r (hcon ▸ hmem)

theorem groupKeys_ne_nil {xs : List Reading} (key : Reading → Int) (h : xs ≠ []) :
    groupKeys xs key ≠ [] := by
  simpa [groupKeys] using h

theorem seriesMean_of_ne_nil {l : List Rat} (h : l ≠ []) :
    seriesMean l = some (l.sum / (l.length : Rat)) := by
  rw [seriesMean, if_neg]
  simpa [List.isEmpty_iff] using h

theorem groupbyMeanMean_isSome {xs : List Reading} (key : Reading → Int)
    (h : xs ≠ []) : ∃ q, groupbyMeanMean xs key = some q := by
  rw [groupbyMeanMean, seriesMean_of_ne_nil (by simpa using groupKeys_ne_nil key h)]
  exact ⟨_, rfl⟩

theorem groupbySumMean_isSome {xs : List Reading} (key : Reading → Int)
    (h : xs ≠ []) : ∃ q, groupbySumMean xs key = some q := by
  rw [groupbySumMean, seriesMean_of_ne_nil (by simpa using groupKeys_ne_nil key h)]
  exact ⟨_, rfl⟩

theorem calculate_key_metrics_ok {xs : List Reading} (h : xs ≠ []) :
    ∃ a b c, avg_liters_hour_recent_day xs = some a ∧
      avg_liters_hour_7_days xs = some b ∧ avg_liters_day_7_days xs = some c ∧
      calculate_key_metrics xs =
        Except.ok (KeyMetrics.mk (pythonRound a) (pythonRound b) (pythonRound c)
          (pythonRound (c / 15))) := by
  obtain ⟨a, ha⟩ := groupbyMeanMean_isSome (·.hour) (recent_day_data_ne_nil h)
  obtain ⟨b, hb⟩ := groupbyMeanMean_isSome (·.hour) (last_7_days_ne_nil h)
  obtain ⟨c, hc⟩ := groupbySumMean_isSome (·.date) (last_7_days_ne_nil h)
  refine ⟨a, b, c, ha, hb, hc, ?_⟩
  simp only [calculate_key_metrics, avg_liters_hour_recent_day, avg_liters_hour_7_days,
    avg_liters_day_7_days, ha, hb, hc, roundOrFault, Option.map_some]
  rfl

/-- C4: for every month 1..12, `determine_season` returns exactly one of the
four fixed labels, with months 12/1/2 mapped to Hot Dry, 3/4/5 to Long Rains,
6/7/8 to Cool Dry and 9/10/11 to Short Rains; in particular the boundary
month pairs (2/3, 5/6, 8/9, 11/12) land in the correct adjacent seasons. -/
theorem determine_season_months (m : Int) (h1 : 1 ≤ m) (h12 : m ≤ 12) :
    ((m = 12 ∨ m = 1 ∨ m = 2) → determine_season m = "Hot Dry (Dec-Feb)") ∧
    ((m = 3 ∨ m = 4 ∨ m = 5) → determine_season m = "Long Rains (Mar-May)") ∧
    ((m = 6 ∨ m = 7 ∨ m = 8) → determine_season m = "Cool Dry (Jun-Aug)") ∧
    ((m = 9 ∨ m = 10 ∨ m = 11) → determine_season m = "Short Rains (Sep-Nov)") ∧
    determine_season m ∈ seasonLabels := by
  interval_cases m <;> decide

theorem determine_season_months_witness :
    determine_season 3 = "Long Rains (Mar-May)" ∧
    determine_season 2 = "Hot Dry (Dec-Feb)" :=
  ⟨(determine_season_months 3 (by norm_num) (by norm_num)).2.1 (Or.inl rfl),
   (determine_season_months 2 (by norm_num) (by norm_num)).1 (Or.inr (Or.inr rfl))⟩

/-- C10: `determine_season` is total over all integer months: every value
outside the three explicitly listed sets, including out-of-range months such
as 0 or 13, falls into the final else branch and is mapped to
"Short Rains (Sep-Nov)". -/
theorem determine_season_default (m : Int)
    (h1 : ¬(m = 12 ∨ m = 1 ∨ m = 2)) (h2 : ¬(m = 3 ∨ m = 4 ∨ m = 5))
    (h3 : ¬(m = 6 ∨ m = 7 ∨ m = 8)) :
    determine_season m = "Short Rains (Sep-Nov)" := by
  simp only [determine_season, if_neg h1, if_neg h2, if_neg h3]

theorem determine_season_default_witness :
    determine_season 0 = "Short Rains (Sep-Nov)" ∧
    determine_season 13 = "Short Rains (Sep-Nov)" :=
  ⟨determine_season_default 0 (by decide) (by decide) (by decide),
   determine_season_default 13 (by decide) (by decide) (by decide)⟩

/-- C1 (counterexample): on a reading set whose windows contain zero readings
(the empty set), `calculate_key_metrics` does not produce an explicit
"no data" value: the NaN averages reach `round`, which raises `ValueError`
— an unrecoverable fault, contrary to the claim. -/
theorem calculate_key_metrics_empty_faults :
    calculate_key_metrics [] =
      Except.error ("ValueError: cannot convert float NaN to integer") := rfl

/-- C1 (amended): `calculate_key_metrics` succeeds exactly on the nonempty
reading sets.  When any underlying window has zero readings — possible only
for the empty reading set, since both windows always contain the max-date
readings — the NaN metric reaches `round`, which raises `ValueError` rather
than returning an explicit absent value; it never silently coerces a metric
to zero, because it faults instead. -/
theorem calculate_key_metrics_defined_iff (xs : List Reading) :
    (∃ km, calculate_key_metrics xs = Except.ok km) ↔ xs ≠ [] := by
  constructor
  · rintro ⟨km, hkm⟩ rfl
    have : calculate_key_metrics ([] : List Reading) =
        Except.error ("ValueError: cannot convert float NaN to integer") := rfl
    rw [this] at hkm
    cases hkm
  · intro h
    obtain ⟨a, b, c, _, _, _, hok⟩ := calculate_key_metrics_ok h
    exact ⟨_, hok⟩

/-- C3 (counterexample): the password allow-list is not fixed at load time.
`authenticate_user` reloads the configuration file on every attempt, so two
attempts with the same password in one process lifetime can differ in
outcome when the configuration contents change between them. -/
theorem password_allowlist_not_fixed :
    (authenticate_user 1 0 (some ("secret")) (AuthState.mk false)
        (ConfigFile.valid (some ["secret"]))).1.authenticated = true ∧
    (authenticate_user 1 0 (some ("secret")) (AuthState.mk false)
        ConfigFile.missing).1.authenticated = false := by decide

/-- C3 (amended): the allow-list is re-read from the configuration file on
every authentication attempt; an attempt's outcome is a function of the
submitted password, the session state and the configuration contents at the
moment of the attempt (not of the click counters), so two attempts with the
same password agree whenever the configuration contents are unchanged. -/
theorem authenticate_user_per_attempt (n1 m1 n2 m2 : Nat)
    (password : Option String) (auth : AuthState) (cfg : ConfigFile)
    (h1 : n1 ≠ 0 ∨ m1 ≠ 0) (h2 : n2 ≠ 0 ∨ m2 ≠ 0) :
    authenticate_user n1 m1 password auth cfg =
      authenticate_user n2 m2 password auth cfg := by
  simp only [authenticate_user]
  by_cases hp : passwordMatches password (load_passwords cfg) = true
  · rw [if_pos (And.intro h1 hp), if_pos (And.intro h2 hp)]
  · have hn1 : ¬((n1 ≠ 0 ∨ m1 ≠ 0) ∧
        passwordMatches password (load_passwords cfg) = true) := fun hc => hp hc.2
    have hn2 : ¬((n2 ≠ 0 ∨ m2 ≠ 0) ∧
        passwordMatches password (load_passwords cfg) = true) := fun hc => hp hc.2
    rw [if_neg hn1, if_neg hn2, if_pos h1, if_pos h2]

theorem authenticate_user_per_attempt_witness :
    authenticate_user 1 0 (some ("pw")) (AuthState.mk false)
        (ConfigFile.valid (some ["pw"])) =
      authenticate_user 2 3 (some ("pw")) (AuthState.mk false)
        (ConfigFile.valid (some ["pw"])) :=
  authenticate_user_per_attempt 1 0 2 3 (some ("pw")) (AuthState.mk false)
    (ConfigFile.valid (some ["pw"])) (Or.inl (by decide)) (Or.inl (by decide))

/-- C9: on a submitted password, if the password is in the allow-list the
session becomes authenticated with an empty message; otherwise the session
state is returned unchanged (still unauthenticated) with the failure message
attached, and rendering an unauthenticated session produces the login view
(no exception is propagated). -/
theorem authenticate_user_outcomes (n_clicks n_submit : Nat) (password : String)
    (auth : AuthState) (cfg : ConfigFile) (pathname : String)
    (datasets : List String)
    (hclick : n_clicks ≠ 0 ∨ n_submit ≠ 0) (hauth : auth.authenticated = false) :
    (password ∈ load_passwords cfg →
        authenticate_user n_clicks n_submit (some password) auth cfg =
          ({ auth with authenticated := true }, "")) ∧
    (password ∉ load_passwords cfg →
        authenticate_user n_clicks n_submit (some password) auth cfg =
          (auth, "Incorrect password. Please try again.") ∧
        render_page auth pathname datasets = Page.login) := by
  constructor
  · intro hmem
    have hp : passwordMatches (some password) (load_passwords cfg) = true := by
      simpa [passwordMatches] using hmem
    simp only [authenticate_user]
    rw [if_pos (And.intro hclick hp)]
  · intro hmem
    have hp : ¬ passwordMatches (some password) (load_passwords cfg) = true := by
      simpa [passwordMatches] using hmem
    refine ⟨?_, ?_⟩
    · simp only [authenticate_user]
      have hn : ¬((n_clicks ≠ 0 ∨ n_submit ≠ 0) ∧
          passwordMatches (some password) (load_passwords cfg) = true) :=
        fun hc => hp hc.2
      rw [if_neg hn, if_pos hclick]
    · simp [render_page, hauth]

theorem authenticate_user_outcomes_witness :
    authenticate_user 1 0 (some ("secret")) (AuthState.mk false)
        (ConfigFile.valid (some ["secret"])) = (AuthState.mk true, "") ∧
    authenticate_user 1 0 (some ("wrong")) (AuthState.mk false)
        (ConfigFile.valid (some ["secret"])) =
      (AuthState.mk false, "Incorrect password. Please try again.") ∧
    render_page (AuthState.mk false) "/" [] = Page.login := by
  refine ⟨?_, ?_, ?_⟩
  · exact (authenticate_user_outcomes 1 0 ("secret") (AuthState.mk false)
      (ConfigFile.valid (some ["secret"])) "/" [] (Or.inl (by decide)) rfl).1
      (by decide)
  · exact ((authenticate_user_outcomes 1 0 ("wrong") (AuthState.mk false)
      (ConfigFile.valid (some ["secret"])) "/" [] (Or.inl (by decide)) rfl).2
      (by decide)).1
  · exact ((authenticate_user_outcomes 1 0 ("wrong") (AuthState.mk false)
      (ConfigFile.valid (some ["secret"])) "/" [] (Or.inl (by decide)) rfl).2
      (by decide)).2

theorem charListLt_irrefl : ∀ l : List Char, charListLt l l = false := by
  intro l
  induction l with
  | nil => rfl
  | cons a as ih => simp [charListLt, ih]

theorem strLtB_irrefl (a : String) : strLtB a a = false :=
  charListLt_irrefl a.data

theorem charListLt_trans : ∀ xs ys zs : List Char,
    charListLt xs ys = true → charListLt ys zs = true →
    charListLt xs zs = true := by
  intro xs
  induction xs with
  | nil =>
    intro ys zs h1 h2
    cases ys with
    | nil => simp [charListLt] at h1
    | cons b bs =>
      cases zs with
      | nil => simp [charListLt] at h2
      | cons c cs => rfl
  | cons a as ih =>
    intro ys zs h1 h2
    cases ys with
    | nil => simp [charListLt] at h1
    | cons b bs =>
      cases zs with
      | nil => simp [charListLt] at h2
      | cons c cs =>
        simp only [charListLt] at h1 h2 ⊢
        by_cases hab : a.toNat < b.toNat
        · by_cases hbc : b.toNat < c.toNat
          · rw [if_pos (Nat.lt_trans hab hbc)]
          · rw [if_neg hbc] at h2
            by_cases hcb : c.toNat < b.toNat
            · rw [if_pos hcb] at h2; simp at h2
            · rw [if_pos (show a.toNat < c.toNat by omega)]
        · rw [if_neg hab] at h1
          by_cases hba : b.toNat < a.toNat
          · rw [if_pos hba] at h1; simp at h1
          · rw [if_neg hba] at h1
            by_cases hbc : b.toNat < c.toNat
            · rw [if_pos (show a.toNat < c.toNat by omega)]
            · rw [if_neg hbc] at h2
              by_cases hcb : c.toNat < b.toNat
              · rw [if_pos hcb] at h2; simp at h2
              · rw [if_neg hcb] at h2
                rw [if_neg (show ¬ a.toNat < c.toNat by omega),
                  if_neg (show ¬ c.toNat < a.toNat by omega)]
                exact ih bs cs h1 h2

theorem strLtB_trans {a b c : String} (h1 : strLtB a b = true)
    (h2 : strLtB b c = true) : strLtB a c = true :=
  charListLt_trans a.data b.data c.data h1 h2

theorem selectMin_spec : ∀ l : List String, l ≠ [] →
    ∃ v, selectMin l = some v ∧ v ∈ l ∧ ∀ w ∈ l, strLtB w v = false := by
  intro l
  induction l with
  | nil => exact fun h => absurd rfl h
  | cons x xs ih =>
    intro _
    by_cases hxs : xs = []
    · subst hxs
      refine ⟨x, rfl, List.mem_singleton_self x, ?_⟩
      intro w hw
      rw [List.mem_singleton] at hw
      subst hw
      exact strLtB_irrefl w
    · obtain ⟨v, hv, hvmem, hvle⟩ := ih hxs
      refine ⟨if strLtB x v then x else v, by simp [selectMin, hv], ?_, ?_⟩
      · by_cases hlt : strLtB x v = true
        · rw [if_pos hlt]; exact List.mem_cons_self x xs
        · rw [if_neg hlt]; exact List.mem_cons_of_mem x hvmem
      · intro w hw
        by_cases hlt : strLtB x v = true
        · rw [if_pos hlt]
          rcases List.mem_cons.mp hw with rfl | hw2
          · exact strLtB_irrefl w
          · by_cases hwx : strLtB w x = true
            · have h3 := strLtB_trans hwx hlt
              rw [hvle w hw2] at h3
              simp at h3
            · simpa using hwx
        · rw [if_neg hlt]
          rcases List.mem_cons.mp hw with rfl | hw2
          · simpa using hlt
          · exact hvle w hw2

theorem list_argmax {α : Type} (f : α → Nat) :
    ∀ l : List α, l ≠ [] → ∃ v ∈ l, ∀ w ∈ l, f w ≤ f v := by
  intro l
  induction l with
  | nil => exact fun h => absurd rfl h
  | cons x xs ih =>
    intro _
    by_cases hxs : xs = []
    · subst hxs
      refine ⟨x, List.mem_singleton_self x, ?_⟩
      intro w hw
      rw [List.mem_singleton] at hw
      exact hw ▸ le_rfl
    · obtain ⟨v, hvmem, hvmax⟩ := ih hxs
      by_cases hc : f x ≤ f v
      · refine ⟨v, List.mem_cons_of_mem x hvmem, ?_⟩
        intro w hw
        rcases List.mem_cons.mp hw with rfl | hw2
        · exact hc
        · exact hvmax w hw2
      · refine ⟨x, List.mem_cons_self x xs, ?_⟩
        intro w hw
        rcases List.mem_cons.mp hw with rfl | hw2
        · exact le_rfl
        · exact le_trans (hvmax w hw2) (le_of_not_le hc)

/-- C2 (counterexample): on the tied column [B, A] the extraction returns
"A" — the smallest tied value, because `Series.mode` sorts its result
ascending and index 0 is taken — not "B", the value appearing first in input
order; moreover, for the descriptive columns other than `installation_date`,
an absent column raises `KeyError` rather than yielding "Unknown". -/
theorem extract_metadata_tie_counterexample :
    metadataField [some ("B"), some ("A")] = "A" ∧
    metadataField [some ("B"), some ("A")] ≠ "B" ∧
    metadataFieldRequired none = Except.error ("KeyError") :=
  ⟨by decide, by decide, rfl⟩

/-- C2 (amended): each metadata field is a most frequent non-null value of
its column; on a tie the smallest tied value in ascending (code-point) order
is returned, not the value appearing first in input order; an entirely null
or empty column yields "Unknown", as does an absent `installation_date`
column (the other descriptive columns raise `KeyError` when absent). -/
theorem extract_metadata_mode (column : List (Option String)) :
    (dropna column = [] → metadataField column = "Unknown") ∧
    (dropna column ≠ [] →
      metadataField column ∈ dropna column ∧
      (∀ w ∈ dropna column,
        (dropna column).count w ≤ (dropna column).count (metadataField column)) ∧
      (∀ w ∈ dropna column,
        (dropna column).count (metadataField column) ≤ (dropna column).count w →
          strLtB w (metadataField column) = false)) ∧
    metadataFieldChecked none = "Unknown" := by
  refine ⟨?_, ?_, rfl⟩
  · intro h
    simp [metadataField, modeFirst, h, selectMin]
  · intro h
    set vs := dropna column with hvs
    set tied := vs.dedup.filter
      (fun v => decide (∀ w ∈ vs, vs.count w ≤ vs.count v)) with htied
    have htne : tied ≠ [] := by
      obtain ⟨v0, hv0mem, hv0max⟩ := list_argmax (fun v => vs.count v) vs h
      have hmem : v0 ∈ tied := by
        rw [htied]
        exact List.mem_filter.mpr ⟨List.mem_dedup.mpr hv0mem, decide_eq_true hv0max⟩
      intro hcon
      exact List.not_mem_nil v0 (hcon ▸ hmem)
    obtain ⟨v, hv, hvmem, hvle⟩ := selectMin_spec tied htne
    have hfield : metadataField column = v := by
      simp [metadataField, modeFirst, ← hvs, ← htied, hv]
    have hvtied := hvmem
    rw [htied] at hvtied
    obtain ⟨hvded, hvmax⟩ := List.mem_filter.mp hvtied
    have hvmax2 : ∀ w ∈ vs, vs.count w ≤ vs.count v := of_decide_eq_true hvmax
    rw [hfield]
    refine ⟨List.mem_dedup.mp hvded, hvmax2, ?_⟩
    intro w hw hcw
    have hwtied : w ∈ tied := by
      rw [htied]
      refine List.mem_filter.mpr ⟨List.mem_dedup.mpr hw, decide_eq_true ?_⟩
      intro u hu
      exact le_trans (hvmax2 u hu) hcw
    exact hvle w hwtied

theorem extract_metadata_mode_witness :
    metadataField ([] : List (Option String)) = "Unknown" ∧
    metadataField [some ("A"), some ("A"), some ("B")] ∈
      dropna [some ("A"), some ("A"), some ("B")] ∧
    metadataField [some ("A"), some ("A"), some ("B")] = "A" :=
  ⟨(extract_metadata_mode []).1 rfl,
   ((extract_metadata_mode [some ("A"), some ("A"), some ("B")]).2.1 (by decide)).1,
   by decide⟩
theorem rat_floor_eq_intFloor (q : Rat) : q.floor = ⌊q⌋ := by
  rw [Rat.floor_def', Rat.floor_def]

/-- C5: for a nonempty reading set with maximum local date `m`, the 7-day
window contains exactly the readings whose local date is at least `m - 7`
(inclusive, calendar-day arithmetic, independent of gaps in the readings),
and `avg_liters_day_7_days` is the average over the distinct dates of that
window of the per-date liters sums. -/
theorem seven_day_window_spec (xs : List Reading) (m : Int)
    (hmem : ∃ r ∈ xs, r.date = m) (hub : ∀ r ∈ xs, r.date ≤ m) :
    (∀ r, r ∈ last_7_days xs ↔ (r ∈ xs ∧ m - 7 ≤ r.date)) ∧
    avg_liters_day_7_days xs =
      some (((distinctDates (last_7_days xs)).map
          (dailyTotal (last_7_days xs))).sum /
        ((distinctDates (last_7_days xs)).length : Rat)) := by
  have hmax : maxDate xs = some m := maxDate_eq_some xs m hmem hub
  have hxs : xs ≠ [] := by
    rintro rfl
    obtain ⟨r, hr, _⟩ := hmem
    exact List.not_mem_nil r hr
  constructor
  · intro r
    simp [last_7_days, hmax, List.mem_filter]
  · rw [avg_liters_day_7_days, groupbySumMean,
      seriesMean_of_ne_nil (by simpa using groupKeys_ne_nil _ (last_7_days_ne_nil hxs))]
    simp only [List.length_map]
    rfl

theorem seven_day_window_spec_witness :
    avg_liters_day_7_days [Reading.mk 0 0 1 5, Reading.mk 1 0 1 7] =
      some (((distinctDates (last_7_days [Reading.mk 0 0 1 5, Reading.mk 1 0 1 7])).map
          (dailyTotal (last_7_days [Reading.mk 0 0 1 5, Reading.mk 1 0 1 7]))).sum /
        ((distinctDates (last_7_days [Reading.mk 0 0 1 5, Reading.mk 1 0 1 7])).length : Rat)) ∧
    avg_liters_day_7_days [Reading.mk 0 0 1 5, Reading.mk 1 0 1 7] = some 6 :=
  ⟨(seven_day_window_spec [Reading.mk 0 0 1 5, Reading.mk 1 0 1 7] 1
      (by decide) (by decide)).2,
   by norm_num [avg_liters_day_7_days, groupbySumMean, seriesMean, groupKeys,
     groupLiters, last_7_days, maxDate, List.dedup, List.max?, List.pwFilter]⟩

/-- C7: for a nonempty reading set with maximum local date `m`,
`avg_liters_hour_recent_day` restricts to the readings of date `m`, groups
them by hour, averages liters within each hour, then averages those hourly
averages; on one day of 24 hourly readings of 10 liters each the result
is 10. -/
theorem recent_day_hourly_avg (xs : List Reading) (m : Int)
    (hmem : ∃ r ∈ xs, r.date = m) (hub : ∀ r ∈ xs, r.date ≤ m) :
    (∀ r, r ∈ recent_day_data xs ↔ (r ∈ xs ∧ r.date = m)) ∧
    avg_liters_hour_recent_day xs =
      some (((distinctHours (recent_day_data xs)).map
          (hourlyMean (recent_day_data xs))).sum /
        ((distinctHours (recent_day_data xs)).length : Rat)) := by
  have hmax : maxDate xs = some m := maxDate_eq_some xs m hmem hub
  have hxs : xs ≠ [] := by
    rintro rfl
    obtain ⟨r, hr, _⟩ := hmem
    exact List.not_mem_nil r hr
  constructor
  · intro r
    simp [recent_day_data, hmax, List.mem_filter]
  · rw [avg_liters_hour_recent_day, groupbyMeanMean,
      seriesMean_of_ne_nil
        (by simpa using groupKeys_ne_nil _ (recent_day_data_ne_nil hxs))]
    simp only [groupLiters, List.length_map]
    rfl

set_option maxHeartbeats 2000000 in
theorem recent_day_hourly_avg_witness :
    avg_liters_hour_recent_day hourlyExample =
      some (((distinctHours (recent_day_data hourlyExample)).map
          (hourlyMean (recent_day_data hourlyExample))).sum /
        ((distinctHours (recent_day_data hourlyExample)).length : Rat)) ∧
    avg_liters_hour_recent_day hourlyExample = some 10 :=
  ⟨(recent_day_hourly_avg hourlyExample 0 (by decide) (by decide)).2,
   by norm_num [avg_liters_hour_recent_day, groupbyMeanMean, seriesMean, groupKeys,
     groupLiters, recent_day_data, maxDate, List.dedup, List.max?, List.pwFilter,
     hourlyExample, List.range, List.range.loop]⟩

/-- C8: whenever the 7-day window is nonempty (so `avg_liters_day_7_days`
is some value `q`), the estimated-beneficiaries metric equals
`round(q / 15)` with the fixed per-person constant 15 and Python rounding to
the nearest integer; with `q = 1500` the estimate is 100. -/
theorem estimated_beneficiaries_round (xs : List Reading) (q : Rat)
    (h : avg_liters_day_7_days xs = some q) :
    (calculate_key_metrics xs).map (fun km => km.estimatedBeneficiaries) =
      Except.ok (pythonRound (q / 15)) := by
  have hxs : xs ≠ [] := by
    rintro rfl
    have hnil : avg_liters_day_7_days [] = none := rfl
    rw [hnil] at h
    cases h
  obtain ⟨a, b, c, _, _, hc, hok⟩ := calculate_key_metrics_ok hxs
  rw [hc] at h
  injection h with h
  subst h
  rw [hok]
  rfl

theorem estimated_beneficiaries_round_witness :
    (calculate_key_metrics [Reading.mk 0 0 1 1500, Reading.mk 1 0 1 1500]).map
        (fun km => km.estimatedBeneficiaries) = Except.ok 100 ∧
    avg_liters_day_7_days [Reading.mk 0 0 1 1500, Reading.mk 1 0 1 1500] =
      some 1500 := by
  have havg : avg_liters_day_7_days
      [Reading.mk 0 0 1 1500, Reading.mk 1 0 1 1500] = some 1500 := by
    norm_num [avg_liters_day_7_days, groupbySumMean, seriesMean, groupKeys,
      groupLiters, last_7_days, maxDate, List.dedup, List.max?, List.pwFilter]
  have h := estimated_beneficiaries_round
    [Reading.mk 0 0 1 1500, Reading.mk 1 0 1 1500] 1500 havg
  have h2 : pythonRound ((1500 : Rat) / 15) = 100 := by
    norm_num [pythonRound, rat_floor_eq_intFloor]
  exact ⟨by rw [h, h2], havg⟩

theorem filter_dedup_comm {α : Type} [DecidableEq α] (p : α → Bool) :
    ∀ l : List α, (l.dedup).filter p = (l.filter p).dedup := by
  intro l
  induction l with
  | nil => rfl
  | cons x xs ih =>
    by_cases hx : x ∈ xs
    · rw [List.dedup_cons_of_mem hx, ih, List.filter_cons]
      by_cases hp : p x = true
      · rw [if_pos hp, List.dedup_cons_of_mem (List.mem_filter.mpr ⟨hx, hp⟩)]
      · rw [if_neg hp]
    · rw [List.dedup_cons_of_not_mem hx, List.filter_cons, List.filter_cons]
      by_cases hp : p x = true
      · rw [if_pos hp, if_pos hp,
          List.dedup_cons_of_not_mem (fun hc => hx (List.mem_filter.mp hc).1), ih]
      · rw [if_neg hp, if_neg hp, ih]

theorem season_rows_eq (xs : List Reading) (s : String) :
    (season_date_pairs xs).filter (fun p => p.1 = s) =
      (seasonDistinctDates xs s).map (fun d => (s, d)) := by
  unfold season_date_pairs seasonDistinctDates seasonReadings
  rw [filter_dedup_comm, List.filter_map]
  show ((xs.filter (fun r => r.season = s)).map
      (fun r => (r.season, r.date))).dedup = _
  have hmap : (xs.filter (fun r => r.season = s)).map
        (fun r => (r.season, r.date)) =
      (xs.filter (fun r => r.season = s)).map (fun r => ((s : String), r.date)) := by
    apply List.map_congr_left
    intro r hr
    rw [of_decide_eq_true (List.mem_filter.mp hr).2]
  rw [hmap,
    show (fun r : Reading => ((s : String), r.date)) =
      ((fun d : Int => (s, d)) ∘ (fun r : Reading => r.date)) from rfl,
    ← List.map_map,
    List.dedup_map_of_injective (fun a b h => congrArg Prod.snd h)]

theorem pairTotal_pair (xs : List Reading) (s : String) (d : Int) :
    pairTotal xs (s, d) = seasonDailyTotal xs s d := by
  unfold pairTotal seasonDailyTotal seasonReadings
  rw [List.filter_filter]
  have hcong : ∀ r ∈ xs, (decide (r.season = (s, d).1 ∧ r.date = (s, d).2)) =
      (decide (r.date = d) && decide (r.season = s)) := by
    intro r _
    simp [Bool.and_comm]
  rw [List.filter_congr hcong]

theorem lookup_map_key {β : Type} (f : String → β) :
    ∀ (ts : List String) (s : String),
    ((ts.map (fun t => (t, f t))).lookup s) =
      if s ∈ ts then some (f s) else none := by
  intro ts s
  induction ts with
  | nil => simp
  | cons t ts ih =>
    by_cases hst : s = t
    · subst hst
      simp [List.lookup]
    · have hbeq : (s == t) = false := beq_eq_false_iff_ne.mpr hst
      simp only [List.map_cons, List.lookup, hbeq, ih, List.mem_cons]
      by_cases hmem : s ∈ ts
      · rw [if_pos hmem, if_pos (Or.inr hmem)]
      · rw [if_neg hmem, if_neg (fun hc => hc.elim hst hmem)]

/-- C6: `calculate_seasonal_averages` reports a season if and only if it has
at least 85 distinct contributing local dates (85 retained, 84 excluded), and
then its `avg_daily_volume` is the average of the per-(season, date) daily
liters totals; a season below the threshold is absent from the result
(lookup yields `none`), not reported as zero. -/
theorem seasonal_averages_spec (xs : List Reading) (s : String) :
    (calculate_seasonal_averages xs).lookup s =
      (if 85 ≤ (seasonDistinctDates xs s).length then
        some (((seasonDistinctDates xs s).map (seasonDailyTotal xs s)).sum /
          ((seasonDistinctDates xs s).length : Rat))
      else none) := by
  have hrows := season_rows_eq xs s
  have hdays : days_per_season xs s = (seasonDistinctDates xs s).length := by
    rw [days_per_season, hrows, List.length_map]
  have hval : (((season_date_pairs xs).filter (fun p => p.1 = s)).map
        (pairTotal xs)).sum /
      ((((season_date_pairs xs).filter (fun p => p.1 = s)).length : Rat)) =
      ((seasonDistinctDates xs s).map (seasonDailyTotal xs s)).sum /
        ((seasonDistinctDates xs s).length : Rat) := by
    rw [hrows, List.length_map, List.map_map]
    have hfun : ((seasonDistinctDates xs s).map (pairTotal xs ∘ fun d => (s, d))) =
        ((seasonDistinctDates xs s).map (seasonDailyTotal xs s)) := by
      apply List.map_congr_left
      intro d _
      exact pairTotal_pair xs s d
    rw [hfun]
  have hmem_seasons : s ∈ ((season_date_pairs xs).map Prod.fst).dedup ↔
      seasonDistinctDates xs s ≠ [] := by
    rw [List.mem_dedup, List.mem_map]
    constructor
    · rintro ⟨p, hp, hfst⟩
      have hmemrow : p ∈ (season_date_pairs xs).filter (fun q => q.1 = s) :=
        List.mem_filter.mpr ⟨hp, by simp [hfst]⟩
      rw [hrows] at hmemrow
      intro hnil
      rw [hnil] at hmemrow
      simp at hmemrow
    · intro hne
      obtain ⟨d, hd⟩ := List.exists_mem_of_ne_nil _ hne
      have hmemrow : (s, d) ∈ (seasonDistinctDates xs s).map (fun d => (s, d)) :=
        List.mem_map_of_mem _ hd
      rw [← hrows] at hmemrow
      exact ⟨(s, d), (List.mem_filter.mp hmemrow).1, rfl⟩
  rw [calculate_seasonal_averages, lookup_map_key]
  by_cases h85 : 85 ≤ (seasonDistinctDates xs s).length
  · have hne : seasonDistinctDates xs s ≠ [] := by
      intro hnil
      rw [hnil] at h85
      simp at h85
    have hcomp : s ∈ complete_seasons xs := by
      refine List.mem_filter.mpr ⟨hmem_seasons.mpr hne, decide_eq_true ?_⟩
      rw [hdays]
      exact h85
    rw [if_pos hcomp, if_pos h85, hval]
  · have hcomp : s ∉ complete_seasons xs := by
      intro hc
      have hcond := of_decide_eq_true (List.mem_filter.mp hc).2
      rw [hdays] at hcond
      exact h85 hcond
    rw [if_neg hcomp, if_neg h85]
